import Mathlib

/-!
Verification of the three-statement financial modelling engine.

Shallow embedding of the projection pipeline (income statement, working
capital, cash flow, balance sheet), the scenario-assumption transform and
the consistency validator. Python floats are modelled as exact rationals
(the spec describes the arithmetic as performed without intermediate
rounding); Python ValueError / RuntimeError raise sites become explicit
error constructors of an Except result. Diagnostic messages keep the
Python text minus the interpolated numeric values, which no claim
depends on.
-/

/-- Financial assumption set (the keys read by the engines). -/
structure Assumptions where
  revenue_growth : ℚ
  gross_margin : ℚ
  opex_ratio : ℚ
  depreciation_rate : ℚ
  interest_rate : ℚ
  tax_rate : ℚ
  dso : ℚ
  dio : ℚ
  dpo : ℚ
  capex_ratio : ℚ
deriving DecidableEq, Repr

/-- Projected Income Statement for a single period
(src/engine/income_statement.py, class IncomeStatement). -/
structure IncomeStatement where
  period : String
  revenue : ℚ
  cogs : ℚ
  gross_profit : ℚ
  operating_expenses : ℚ
  ebitda : ℚ
  depreciation : ℚ
  ebit : ℚ
  interest_expense : ℚ
  ebt : ℚ
  tax_expense : ℚ
  net_income : ℚ
deriving DecidableEq, Repr

/-- Working capital components for a single period
(src/engine/working_capital.py, class WorkingCapital). -/
structure WorkingCapital where
  period : String
  accounts_receivable : ℚ
  inventory : ℚ
  accounts_payable : ℚ
deriving DecidableEq, Repr

/-- Cash Flow Statement for a single period
(src/engine/cash_flow.py, class CashFlowStatement). -/
structure CashFlowStatement where
  period : String
  net_income : ℚ
  depreciation : ℚ
  change_in_ar : ℚ
  change_in_inventory : ℚ
  change_in_ap : ℚ
  operating_cash_flow : ℚ
  capex : ℚ
  investing_cash_flow : ℚ
  debt_issuance : ℚ
  debt_repayment : ℚ
  financing_cash_flow : ℚ
  net_change_in_cash : ℚ
deriving DecidableEq, Repr

/-- Balance Sheet for a single period
(src/engine/balance_sheet.py, class BalanceSheet). -/
structure BalanceSheet where
  period : String
  cash : ℚ
  accounts_receivable : ℚ
  inventory : ℚ
  ppe : ℚ
  total_assets : ℚ
  accounts_payable : ℚ
  debt : ℚ
  total_liabilities : ℚ
  equity : ℚ
  retained_earnings : ℚ
  total_equity : ℚ
  total_liabilities_and_equity : ℚ
deriving DecidableEq, Repr

/-- BalanceSheet.check_balance (src/engine/balance_sheet.py lines 53-64). -/
def BalanceSheet.check_balance (bs : BalanceSheet) (tolerance : ℚ) : Bool :=
  decide (|bs.total_assets - bs.total_liabilities_and_equity| ≤ tolerance)

/-- Raise sites of IncomeStatementEngine.project: the empty-periods
ValueError and the zero-or-negative starting revenue ValueError (the
spec's InvalidStartingState condition). -/
inductive ISError where
  | emptyPeriods
  | invalidStartingState
deriving DecidableEq, Repr

/-- IncomeStatementEngine._project_single_period
(src/engine/income_statement.py lines 109-165). -/
def IncomeStatementEngine.projectSinglePeriod (a : Assumptions) (period : String)
    (prior_revenue : ℚ) : IncomeStatement :=
  let revenue := prior_revenue * (1 + a.revenue_growth)
  let cogs := revenue * (1 - a.gross_margin)
  let gross_profit := revenue - cogs
  let operating_expenses := revenue * a.opex_ratio
  let ebitda := gross_profit - operating_expenses
  let depreciation := revenue * a.depreciation_rate
  let ebit := ebitda - depreciation
  let interest_expense := revenue * a.interest_rate * 0.1
  let ebt := ebit - interest_expense
  let tax_expense := ebt * a.tax_rate
  let net_income := ebt - tax_expense
  { period := period, revenue := revenue, cogs := cogs, gross_profit := gross_profit,
    operating_expenses := operating_expenses, ebitda := ebitda,
    depreciation := depreciation, ebit := ebit, interest_expense := interest_expense,
    ebt := ebt, tax_expense := tax_expense, net_income := net_income }

/-- The projection loop of IncomeStatementEngine.project
(src/engine/income_statement.py lines 99-107): each statement's revenue
seeds the next period. -/
def IncomeStatementEngine.projectList (a : Assumptions) (periods : List String)
    (current_revenue : ℚ) : List IncomeStatement :=
  match periods with
  | [] => []
  | p :: ps =>
    let statement := IncomeStatementEngine.projectSinglePeriod a p current_revenue
    statement :: IncomeStatementEngine.projectList a ps statement.revenue

/-- IncomeStatementEngine.project (src/engine/income_statement.py lines
59-107), with the starting revenue already resolved (the
prior_period_revenue argument, or the last historical revenue). -/
def IncomeStatementEngine.project (a : Assumptions) (periods : List String)
    (prior_period_revenue : ℚ) : Except ISError (List IncomeStatement) :=
  if periods = [] then .error .emptyPeriods
  else if prior_period_revenue ≤ 0 then .error .invalidStartingState
  else .ok (IncomeStatementEngine.projectList a periods prior_period_revenue)

/-- Python str.lower, character by character (the scenario names involved
are ASCII, where Char.toLower agrees with Python). -/
def pyLower (s : String) : String := ⟨s.data.map Char.toLower⟩

/-- ScenarioEngine._get_scenario_assumptions
(src/scenarios/scenario_engine.py lines 132-161), composed with the
lower-casing of the scenario name done in ScenarioEngine.__init__
(line 33). The Python code works on a copy of the base dictionary, so the
transform is a pure function of the base assumption set. -/
def ScenarioEngine.getScenarioAssumptions (base : Assumptions)
    (scenario_name : String) : Assumptions :=
  let name := pyLower scenario_name
  if name = "bull" then
    { base with
      revenue_growth := base.revenue_growth * 1.5,
      gross_margin := min (base.gross_margin * 1.1) 0.9,
      opex_ratio := base.opex_ratio * 0.95 }
  else if name = "bear" then
    let halved := base.revenue_growth * 0.5
    let g := if halved > 0 then (-0.1 : ℚ) else halved
    { base with
      revenue_growth := g,
      gross_margin := base.gross_margin * 0.8,
      opex_ratio := base.opex_ratio * 1.1,
      dso := base.dso * 1.2,
      dpo := base.dpo * 0.9 }
  else base

/-- One entry of the working-capital-changes list produced by
WorkingCapitalEngine.calculate_changes (src/engine/working_capital.py
lines 113-141): a dictionary with the period and the three change keys
read back by the cash flow engine. -/
structure WCChanges where
  period : String
  change_in_ar : ℚ
  change_in_inventory : ℚ
  change_in_ap : ℚ
deriving DecidableEq, Repr

/-- Raise sites of CashFlowEngine.generate: the length-mismatch
ValueError and the empty-statements ValueError. -/
inductive CFError where
  | lengthMismatch
  | emptyStatements
deriving DecidableEq, Repr

/-- CashFlowEngine._generate_single_period (src/engine/cash_flow.py lines
104-165). The is_first_period flag is passed by the caller but never read
in the body, exactly as in the source. -/
def CashFlowEngine.generateSinglePeriod (a : Assumptions)
    (income_stmt : IncomeStatement) (wc_changes : WCChanges)
    (is_first_period : Bool) : CashFlowStatement :=
  let net_income := income_stmt.net_income
  let depreciation := income_stmt.depreciation
  let change_in_ar := -wc_changes.change_in_ar
  let change_in_inventory := -wc_changes.change_in_inventory
  let change_in_ap := wc_changes.change_in_ap
  let operating_cash_flow :=
    net_income + depreciation + change_in_ar + change_in_inventory + change_in_ap
  let capex := -income_stmt.revenue * a.capex_ratio
  let investing_cash_flow := capex
  let debt_issuance := (0 : ℚ)
  let debt_repayment := (0 : ℚ)
  let financing_cash_flow := debt_issuance + debt_repayment
  let net_change_in_cash :=
    operating_cash_flow + investing_cash_flow + financing_cash_flow
  { period := income_stmt.period, net_income := net_income,
    depreciation := depreciation, change_in_ar := change_in_ar,
    change_in_inventory := change_in_inventory, change_in_ap := change_in_ap,
    operating_cash_flow := operating_cash_flow, capex := capex,
    investing_cash_flow := investing_cash_flow, debt_issuance := debt_issuance,
    debt_repayment := debt_repayment, financing_cash_flow := financing_cash_flow,
    net_change_in_cash := net_change_in_cash }

/-- CashFlowEngine.generate (src/engine/cash_flow.py lines 65-102). The
prior_period_cash argument is assigned to a local (current_cash) that the
loop never reads, exactly as in the source. -/
def CashFlowEngine.generate (a : Assumptions)
    (income_statements : List IncomeStatement)
    (working_capital_changes : List WCChanges) (prior_period_cash : ℚ) :
    Except CFError (List CashFlowStatement) :=
  if income_statements.length ≠ working_capital_changes.length then
    .error .lengthMismatch
  else if income_statements = [] then .error .emptyStatements
  else
    let _current_cash := prior_period_cash
    .ok (((income_statements.zip working_capital_changes).enum).map
      (fun x => CashFlowEngine.generateSinglePeriod a x.2.1 x.2.2 (x.1 == 0)))

/-- Raise sites of BalanceSheetEngine.project: the length-mismatch
ValueError, the empty-periods ValueError, and the RuntimeError raised when
a projected balance sheet fails the post-plug balance check (the spec's
CalculationInvariantViolation). -/
inductive BSError where
  | lengthMismatch
  | emptyPeriods
  | calculationInvariantViolation
deriving DecidableEq, Repr

/-- BalanceSheetEngine._project_single_period
(src/engine/balance_sheet.py lines 192-259): roll balances forward, total
them, then plug cash with the computed imbalance and recompute total
assets. -/
def BalanceSheetEngine.projectSinglePeriod (period : String)
    (income_stmt : IncomeStatement) (working_capital : WorkingCapital)
    (cash_flow : CashFlowStatement) (prior_bs : BalanceSheet) : BalanceSheet :=
  let cash := prior_bs.cash + cash_flow.net_change_in_cash
  let accounts_receivable := working_capital.accounts_receivable
  let inventory := working_capital.inventory
  let capex := |cash_flow.capex|
  let depreciation := income_stmt.depreciation
  let ppe := prior_bs.ppe + capex - depreciation
  let total_assets := cash + accounts_receivable + inventory + ppe
  let accounts_payable := working_capital.accounts_payable
  let debt := prior_bs.debt + cash_flow.debt_issuance - cash_flow.debt_repayment
  let total_liabilities := accounts_payable + debt
  let equity := prior_bs.equity
  let retained_earnings := prior_bs.retained_earnings + income_stmt.net_income
  let total_equity := equity + retained_earnings
  let total_liabilities_and_equity := total_liabilities + total_equity
  let imbalance := total_assets - total_liabilities_and_equity
  let cash2 := cash - imbalance
  let total_assets2 := cash2 + accounts_receivable + inventory + ppe
  { period := period, cash := cash2, accounts_receivable := accounts_receivable,
    inventory := inventory, ppe := ppe, total_assets := total_assets2,
    accounts_payable := accounts_payable, debt := debt,
    total_liabilities := total_liabilities, equity := equity,
    retained_earnings := retained_earnings, total_equity := total_equity,
    total_liabilities_and_equity := total_liabilities_and_equity }

/-- The projection loop of BalanceSheetEngine.project
(src/engine/balance_sheet.py lines 124-149): project each period from the
previous one, fail with the CalculationInvariantViolation RuntimeError if
the post-plug balance check does not pass, else roll forward. -/
def BalanceSheetEngine.projectLoop :
    List (String × IncomeStatement × WorkingCapital × CashFlowStatement) →
    BalanceSheet → Except BSError (List BalanceSheet)
  | [], _ => .ok []
  | (p, s, w, c) :: rest, current_bs =>
    let new_bs := BalanceSheetEngine.projectSinglePeriod p s w c current_bs
    if new_bs.check_balance 0.01 then
      match BalanceSheetEngine.projectLoop rest new_bs with
      | .ok bss => .ok (new_bs :: bss)
      | .error e => .error e
    else .error .calculationInvariantViolation

/-- BalanceSheetEngine.project (src/engine/balance_sheet.py lines
81-149), with the prior balance sheet already resolved (the
prior_period_bs argument, or the one built from historical data). -/
def BalanceSheetEngine.project (periods : List String)
    (income_statements : List IncomeStatement)
    (working_capital_list : List WorkingCapital)
    (cash_flow_statements : List CashFlowStatement)
    (prior_period_bs : BalanceSheet) : Except BSError (List BalanceSheet) :=
  if ¬(income_statements.length = periods.length ∧
       working_capital_list.length = periods.length ∧
       cash_flow_statements.length = periods.length) then .error .lengthMismatch
  else if periods = [] then .error .emptyPeriods
  else
    BalanceSheetEngine.projectLoop
      (periods.zip (income_statements.zip
        (working_capital_list.zip cash_flow_statements)))
      prior_period_bs

/-- Single diagnostic message (src/validators/validator.py, class
Diagnostic); level is one of "error", "warning", "info". -/
structure Diagnostic where
  level : String
  category : String
  period : String
  message : String
deriving DecidableEq, Repr

/-- Collection of diagnostic messages (src/validators/validator.py, class
DiagnosticsReport); DiagnosticsReport.add appends, so the list keeps the
order in which the validation passes report. -/
structure DiagnosticsReport where
  diagnostics : List Diagnostic
deriving DecidableEq, Repr

/-- Container for all projected financial statements
(src/validators/validator.py, class ModelResults). -/
structure ModelResults where
  periods : List String
  income_statements : List IncomeStatement
  balance_sheets : List BalanceSheet
  cash_flow_statements : List CashFlowStatement
deriving DecidableEq, Repr

/-- ModelValidator._validate_balance_sheets (src/validators/validator.py
lines 113-124): one error per balance sheet that fails the 0.01-tolerance
balance check. -/
def ModelValidator.validateBalanceSheets (results : ModelResults) :
    List Diagnostic :=
  results.balance_sheets.bind fun bs =>
    if bs.check_balance 0.01 then []
    else [{ level := "error", category := "Balance Sheet", period := bs.period,
            message := "Balance sheet does not balance" }]

/-- Truthiness-and-index test `results.income_statements and
results.income_statements[0].revenue <= 0` from
src/validators/validator.py line 139. -/
def ModelValidator.firstRevenueNonpos (l : List IncomeStatement) : Bool :=
  match l with
  | [] => false
  | s :: _ => decide (s.revenue ≤ 0)

/-- Body of the per-period loop of ModelValidator._validate_cash_balances
(src/validators/validator.py lines 129-170), for the balance sheet at
index i; first_rev_nonpos is the test on the first projected income
statement computed by ModelValidator.firstRevenueNonpos. -/
def ModelValidator.cashDiagnostics (first_rev_nonpos : Bool) (i : ℕ)
    (bs : BalanceSheet) : List Diagnostic :=
  let starting_cash_negative :=
    decide (i = 0) && decide ((1000000 : ℚ) < |bs.cash|) &&
      decide (bs.cash < -1000000)
  if bs.cash < -10000000000 then
    if first_rev_nonpos then
      [{ level := "error", category := "Cash Balance", period := bs.period,
         message := "Cash balance is critically negative; may be due to starting with zero revenue" }]
    else if starting_cash_negative && decide (i = 0) then
      [{ level := "warning", category := "Cash Balance", period := bs.period,
         message := "Starting cash balance is negative" }]
    else
      [{ level := "error", category := "Cash Balance", period := bs.period,
         message := "Cash balance is critically negative" }]
  else if bs.cash < 0 then
    [{ level := "warning", category := "Cash Balance", period := bs.period,
       message := "Cash balance is negative" }]
  else []

/-- The enumerate loop of ModelValidator._validate_cash_balances. -/
def ModelValidator.validateCashAux (first_rev_nonpos : Bool) (i : ℕ) :
    List BalanceSheet → List Diagnostic
  | [] => []
  | bs :: rest =>
    ModelValidator.cashDiagnostics first_rev_nonpos i bs ++
      ModelValidator.validateCashAux first_rev_nonpos (i + 1) rest

/-- ModelValidator._validate_cash_balances (src/validators/validator.py
lines 126-170). -/
def ModelValidator.validateCashBalances (results : ModelResults) :
    List Diagnostic :=
  ModelValidator.validateCashAux
    (ModelValidator.firstRevenueNonpos results.income_statements) 0
    results.balance_sheets

/-- Body of the per-statement loop of ModelValidator._validate_margins
(src/validators/validator.py lines 175-195): skip when revenue is exactly
zero, else warn when the gross margin percentage is below -50 and error
when the net margin percentage is below -100. -/
def ModelValidator.marginDiagnostics (s : IncomeStatement) : List Diagnostic :=
  if s.revenue = 0 then []
  else
    (if s.gross_profit / s.revenue * 100 < (-0.5 : ℚ) * 100 then
      [{ level := "warning", category := "Margin", period := s.period,
         message := "Gross margin is very negative" }]
     else []) ++
    (if s.net_income / s.revenue * 100 < -100 then
      [{ level := "error", category := "Margin", period := s.period,
         message := "Net margin is extremely negative" }]
     else [])

/-- ModelValidator._validate_margins (src/validators/validator.py lines
172-195). -/
def ModelValidator.validateMargins (results : ModelResults) :
    List Diagnostic :=
  results.income_statements.bind ModelValidator.marginDiagnostics

/-- Body of the per-period loop of
ModelValidator._validate_logical_consistency (src/validators/validator.py
lines 200-229): cross-statement net-income and depreciation identity
checks at tolerance 0.01. -/
def ModelValidator.consistencyDiagnostics (period : String)
    (is_stmt : IncomeStatement) (cf : CashFlowStatement) : List Diagnostic :=
  (if 0.01 < |is_stmt.net_income - cf.net_income| then
    [{ level := "error", category := "Consistency", period := period,
       message := "Net Income mismatch" }]
   else []) ++
  (if 0.01 < |is_stmt.depreciation - cf.depreciation| then
    [{ level := "error", category := "Consistency", period := period,
       message := "Depreciation mismatch" }]
   else [])

/-- ModelValidator._validate_logical_consistency
(src/validators/validator.py lines 197-229). The Python loop indexes the
three statement lists by the period index and would raise IndexError on a
shorter list; the claims touch only results whose lists all have the
periods' length, where the lookups always succeed. -/
def ModelValidator.validateLogicalConsistency (results : ModelResults) :
    List Diagnostic :=
  (List.range results.periods.length).bind fun i =>
    match results.periods[i]?, results.income_statements[i]?,
        results.balance_sheets[i]?, results.cash_flow_statements[i]? with
    | some p, some s, some _, some cf =>
      ModelValidator.consistencyDiagnostics p s cf
    | _, _, _, _ => []

/-- ModelValidator.validate_all (src/validators/validator.py lines
87-111): the four passes run unconditionally, in order, accumulating into
one report; the ModelResults value is only read. -/
def ModelValidator.validateAll (results : ModelResults) : DiagnosticsReport :=
  { diagnostics :=
      ModelValidator.validateBalanceSheets results ++
      ModelValidator.validateCashBalances results ++
      ModelValidator.validateMargins results ++
      ModelValidator.validateLogicalConsistency results }

/-- The assumption set of the spec's end-to-end example. -/
def exampleAssumptions : Assumptions :=
  { revenue_growth := 0.05, gross_margin := 0.4, opex_ratio := 0.2,
    depreciation_rate := 0.05, interest_rate := 0.03, tax_rate := 0.25,
    dso := 45, dio := 30, dpo := 40, capex_ratio := 0.04 }

/-- A sample projected income statement used by concrete witnesses. -/
def sampleIS : IncomeStatement :=
  { period := "2025-Q1", revenue := 100, cogs := 60, gross_profit := 40,
    operating_expenses := 20, ebitda := 20, depreciation := 5, ebit := 15,
    interest_expense := 0, ebt := 15, tax_expense := 5, net_income := 10 }

/-- A sample working-capital-changes entry used by concrete witnesses. -/
def sampleWCC : WCChanges :=
  { period := "2025-Q1", change_in_ar := 0, change_in_inventory := 0,
    change_in_ap := 0 }

/-- A one-period ModelResults whose only income statement has revenue 100
and net income -200 (net margin -200 percent). -/
def c9results : ModelResults :=
  { periods := ["2025-Q1"],
    income_statements :=
      [{ period := "2025-Q1", revenue := 100, cogs := 60, gross_profit := 40,
         operating_expenses := 20, ebitda := 20, depreciation := 5, ebit := 15,
         interest_expense := 0, ebt := 15, tax_expense := 5,
         net_income := -200 }],
    balance_sheets := [], cash_flow_statements := [] }

/-- The net-margin error diagnostic the margins pass emits on c9results. -/
def c9diag : Diagnostic :=
  { level := "error", category := "Margin", period := "2025-Q1",
    message := "Net margin is extremely negative" }

/-- A two-period ModelResults: positive first revenue, first-period cash
-2e10 (deeply negative, below the -1e10 floor) and second-period cash
-3e10 (below the floor). -/
def c6results : ModelResults :=
  { periods := ["2025-Q1", "2025-Q2"],
    income_statements := [sampleIS],
    balance_sheets :=
      [{ period := "2025-Q1", cash := -20000000000, accounts_receivable := 0,
         inventory := 0, ppe := 0, total_assets := -20000000000,
         accounts_payable := 0, debt := 0, total_liabilities := 0,
         equity := 0, retained_earnings := 0, total_equity := 0,
         total_liabilities_and_equity := 0 },
       { period := "2025-Q2", cash := -30000000000, accounts_receivable := 0,
         inventory := 0, ppe := 0, total_assets := -30000000000,
         accounts_payable := 0, debt := 0, total_liabilities := 0,
         equity := 0, retained_earnings := 0, total_equity := 0,
         total_liabilities_and_equity := 0 }],
    cash_flow_statements := [] }

/-- A cash-flow statement consistent with sampleIS (net income 10,
depreciation 5), used by the C7 fixture. -/
def sampleCF (p : String) : CashFlowStatement :=
  { period := p, net_income := 10, depreciation := 5, change_in_ar := 0,
    change_in_inventory := 0, change_in_ap := 0, operating_cash_flow := 15,
    capex := 0, investing_cash_flow := 0, debt_issuance := 0,
    debt_repayment := 0, financing_cash_flow := 0, net_change_in_cash := 15 }

/-- A two-period ModelResults that is unremarkable everywhere (positive
cash, healthy margins, matching net income and depreciation across
statements, first period balanced) except that the second period's
balance sheet is off-balance by exactly 5.0. -/
def c7results : ModelResults :=
  { periods := ["2025-Q1", "2025-Q2"],
    income_statements :=
      [sampleIS,
       { period := "2025-Q2", revenue := 100, cogs := 60, gross_profit := 40,
         operating_expenses := 20, ebitda := 20, depreciation := 5, ebit := 15,
         interest_expense := 0, ebt := 15, tax_expense := 5, net_income := 10 }],
    balance_sheets :=
      [{ period := "2025-Q1", cash := 10, accounts_receivable := 0,
         inventory := 0, ppe := 0, total_assets := 10, accounts_payable := 0,
         debt := 0, total_liabilities := 0, equity := 10,
         retained_earnings := 0, total_equity := 10,
         total_liabilities_and_equity := 10 },
       { period := "2025-Q2", cash := 15, accounts_receivable := 0,
         inventory := 0, ppe := 0, total_assets := 15, accounts_payable := 0,
         debt := 0, total_liabilities := 0, equity := 10,
         retained_earnings := 0, total_equity := 10,
         total_liabilities_and_equity := 10 }],
    cash_flow_statements := [sampleCF "2025-Q1", sampleCF "2025-Q2"] }

/-- A sample working-capital snapshot used by the C1 witness. -/
def sampleWC : WorkingCapital :=
  { period := "2025-Q1", accounts_receivable := 12, inventory := 4,
    accounts_payable := 6 }

/-- A sample prior balance sheet used by the C1 witness. -/
def samplePriorBS : BalanceSheet :=
  { period := "2024-Q4", cash := 20, accounts_receivable := 10, inventory := 5,
    ppe := 50, total_assets := 85, accounts_payable := 7, debt := 30,
    total_liabilities := 37, equity := 40, retained_earnings := 8,
    total_equity := 48, total_liabilities_and_equity := 85 }

theorem projectList_length (a : Assumptions) (ps : List String) (r : ℚ) :
    (IncomeStatementEngine.projectList a ps r).length = ps.length := by
  induction ps generalizing r with
  | nil => rfl
  | cons p ps ih => simp [IncomeStatementEngine.projectList, ih]

theorem projectList_revenue_closed (a : Assumptions) (ps : List String) (r : ℚ)
    (i : ℕ) (h : i < (IncomeStatementEngine.projectList a ps r).length) :
    (IncomeStatementEngine.projectList a ps r)[i].revenue =
      r * (1 + a.revenue_growth) ^ (i + 1) := by
  induction ps generalizing r i with
  | nil => simp [IncomeStatementEngine.projectList] at h
  | cons p ps ih =>
    cases i with
    | zero =>
      simp [IncomeStatementEngine.projectList, IncomeStatementEngine.projectSinglePeriod,
        pow_one]
    | succ n =>
      have hn : n < (IncomeStatementEngine.projectList a ps
          (IncomeStatementEngine.projectSinglePeriod a p r).revenue).length := by
        simpa [IncomeStatementEngine.projectList] using h
      simp only [IncomeStatementEngine.projectList, List.getElem_cons_succ]
      rw [ih _ _ hn]
      simp only [IncomeStatementEngine.projectSinglePeriod]
      ring

/-- Claim C2: projecting one income-statement period from prior revenue 1000
under the example assumptions yields exactly revenue 1050, COGS 630, gross
profit 420, opex 210, EBITDA 210, depreciation 52.5, EBIT 157.5, interest
expense 3.15, EBT 154.35, tax 38.5875 and net income 115.7625, with no
intermediate rounding (exact rational arithmetic). -/
theorem C2_single_period_example :
    IncomeStatementEngine.projectSinglePeriod exampleAssumptions "2024-Q1" 1000 =
      { period := "2024-Q1", revenue := 1050, cogs := 630, gross_profit := 420,
        operating_expenses := 210, ebitda := 210, depreciation := 52.5,
        ebit := 157.5, interest_expense := 3.15, ebt := 154.35,
        tax_expense := 38.5875, net_income := 115.7625 } := by
  simp only [IncomeStatementEngine.projectSinglePeriod, exampleAssumptions]
  norm_num

/-- Claim C3: for every non-empty period list and strictly positive starting
revenue, the statements returned by IncomeStatementEngine.project satisfy
revenue 0 = startingRevenue * (1 + g) and revenue (t+1) = revenue t * (1 + g),
where g is the scenario's revenue growth rate: each period's revenue seeds
the next, strictly sequentially. -/
theorem C3_revenue_recurrence (a : Assumptions) (periods : List String) (r0 : ℚ)
    (l : List IncomeStatement) (hne : periods ≠ []) (hpos : 0 < r0)
    (hok : IncomeStatementEngine.project a periods r0 = Except.ok l) :
    l.length = periods.length ∧
    (∀ _ : 0 < l.length, l[0].revenue = r0 * (1 + a.revenue_growth)) ∧
    ∀ (i : ℕ) (_ : i + 1 < l.length),
      l[i + 1].revenue = l[i].revenue * (1 + a.revenue_growth) := by
  have hl : l = IncomeStatementEngine.projectList a periods r0 := by
    rw [IncomeStatementEngine.project, if_neg hne, if_neg (not_le.mpr hpos)] at hok
    exact (Except.ok.injEq _ _).mp hok.symm
  subst hl
  refine ⟨projectList_length a periods r0, fun h0 => ?_, fun i h => ?_⟩
  · rw [projectList_revenue_closed a periods r0 0 h0, pow_one]
  · rw [projectList_revenue_closed a periods r0 (i + 1) h,
      projectList_revenue_closed a periods r0 i (Nat.lt_of_succ_lt h)]
    ring

/-- Witness for C3 at periods ["2025-Q1", "2025-Q2"], starting revenue 100. -/
theorem C3_witness :
    (["2025-Q1", "2025-Q2"] : List String) ≠ [] ∧ (0 : ℚ) < 100 ∧
    ((IncomeStatementEngine.projectList exampleAssumptions
        ["2025-Q1", "2025-Q2"] 100).length = 2 ∧
     (∀ _ : 0 < (IncomeStatementEngine.projectList exampleAssumptions
        ["2025-Q1", "2025-Q2"] 100).length,
       (IncomeStatementEngine.projectList exampleAssumptions
        ["2025-Q1", "2025-Q2"] 100)[0].revenue =
         100 * (1 + exampleAssumptions.revenue_growth)) ∧
     ∀ (i : ℕ) (_ : i + 1 < (IncomeStatementEngine.projectList exampleAssumptions
        ["2025-Q1", "2025-Q2"] 100).length),
       (IncomeStatementEngine.projectList exampleAssumptions
        ["2025-Q1", "2025-Q2"] 100)[i + 1].revenue =
         (IncomeStatementEngine.projectList exampleAssumptions
        ["2025-Q1", "2025-Q2"] 100)[i].revenue *
           (1 + exampleAssumptions.revenue_growth)) := by
  refine ⟨by decide, by norm_num, ?_⟩
  exact C3_revenue_recurrence exampleAssumptions ["2025-Q1", "2025-Q2"] 100 _
    (by decide) (by norm_num) (by simp [IncomeStatementEngine.project])

/-- Counterexample to claim C4 as stated: with an empty period sequence and
negative resolved starting revenue, project raises the empty-periods error,
not the InvalidStartingState one, so the failure mode claimed "for every
period sequence" does not hold for the empty sequence. -/
theorem C4_counterexample :
    IncomeStatementEngine.project exampleAssumptions [] (-5) =
      Except.error ISError.emptyPeriods ∧
    ISError.emptyPeriods ≠ ISError.invalidStartingState ∧ ((-5 : ℚ) ≤ 0) := by
  refine ⟨by simp [IncomeStatementEngine.project], by decide, by norm_num⟩

/-- Claim C4 (amended to non-empty period sequences): for every non-empty
period list, project fails with the InvalidStartingState condition exactly
when the resolved starting revenue is zero or negative, and succeeds
(producing the projected statements) exactly when it is strictly positive. -/
theorem C4_invalid_starting_state (a : Assumptions) (periods : List String)
    (r0 : ℚ) (hne : periods ≠ []) :
    (IncomeStatementEngine.project a periods r0 =
        Except.error ISError.invalidStartingState ↔ r0 ≤ 0) ∧
    (0 < r0 → IncomeStatementEngine.project a periods r0 =
        Except.ok (IncomeStatementEngine.projectList a periods r0)) := by
  rw [IncomeStatementEngine.project, if_neg hne]
  constructor
  · constructor
    · intro h
      by_contra hr
      rw [if_neg hr] at h
      exact Except.noConfusion h
    · intro h
      rw [if_pos h]
  · intro h
    rw [if_neg (not_le.mpr h)]

/-- Witness for C4's amended theorem at a singleton period list. -/
theorem C4_witness :
    (["2025-Q1"] : List String) ≠ [] ∧
    ((IncomeStatementEngine.project exampleAssumptions ["2025-Q1"] (-3) =
        Except.error ISError.invalidStartingState ↔ (-3 : ℚ) ≤ 0) ∧
     (0 < (-3 : ℚ) → IncomeStatementEngine.project exampleAssumptions ["2025-Q1"] (-3) =
        Except.ok (IncomeStatementEngine.projectList exampleAssumptions ["2025-Q1"] (-3)))) :=
  ⟨by decide, C4_invalid_starting_state exampleAssumptions ["2025-Q1"] (-3) (by decide)⟩

/-- Claim C5: the bear transform yields growth exactly -0.10 when half the
base growth is still positive and exactly half the base growth otherwise,
and multiplies grossMargin by 0.8, opexRatio by 1.1, dso by 1.2 and dpo
by 0.9 (dio, rates and the remaining fields are unchanged). -/
theorem C5_bear_transform (base : Assumptions) :
    (ScenarioEngine.getScenarioAssumptions base "bear").revenue_growth =
      (if base.revenue_growth * 0.5 > 0 then (-0.1 : ℚ)
       else base.revenue_growth * 0.5) ∧
    (ScenarioEngine.getScenarioAssumptions base "bear").gross_margin =
      base.gross_margin * 0.8 ∧
    (ScenarioEngine.getScenarioAssumptions base "bear").opex_ratio =
      base.opex_ratio * 1.1 ∧
    (ScenarioEngine.getScenarioAssumptions base "bear").dso = base.dso * 1.2 ∧
    (ScenarioEngine.getScenarioAssumptions base "bear").dpo = base.dpo * 0.9 := by
  have h1 : pyLower "bear" ≠ "bull" := by decide
  have h2 : pyLower "bear" = "bear" := by decide
  refine ⟨?_, ?_, ?_, ?_, ?_⟩ <;>
    simp [ScenarioEngine.getScenarioAssumptions, h1, h2]

/-- Claim C10: scenario dispatch is case-insensitive and falls through to
base: whenever the lower-cased scenario name is neither "bull" nor "bear"
(for example "base", "BASE" or any unrecognized string), the transform
returns the base assumption set unchanged. In the embedding the transform
is a pure function, so the base set is never mutated by any scenario run
(the Python code operates on a dict copy). -/
theorem C10_dispatch_falls_through_to_base (base : Assumptions)
    (scenario_name : String) (hbull : pyLower scenario_name ≠ "bull")
    (hbear : pyLower scenario_name ≠ "bear") :
    ScenarioEngine.getScenarioAssumptions base scenario_name = base := by
  rw [ScenarioEngine.getScenarioAssumptions]
  simp only [hbull, hbear, if_false, ite_false]

/-- Witness for C10 at the upper-cased name "BASE". -/
theorem C10_witness :
    pyLower "BASE" ≠ "bull" ∧ pyLower "BASE" ≠ "bear" ∧
    ScenarioEngine.getScenarioAssumptions exampleAssumptions "BASE" =
      exampleAssumptions :=
  ⟨by decide, by decide,
    C10_dispatch_falls_through_to_base exampleAssumptions "BASE"
      (by decide) (by decide)⟩

/-- Claim C8: the cash-flow statements are independent of the
prior_period_cash argument: on any equal-length non-empty inputs, generate
succeeds and returns the same list for any two prior-cash values (the
parameter is accepted but never influences any output field). -/
theorem C8_prior_cash_independent (a : Assumptions)
    (income_statements : List IncomeStatement)
    (working_capital_changes : List WCChanges) (c1 c2 : ℚ)
    (hlen : income_statements.length = working_capital_changes.length)
    (hne : income_statements ≠ []) :
    ∃ l, CashFlowEngine.generate a income_statements working_capital_changes c1 =
          Except.ok l ∧
         CashFlowEngine.generate a income_statements working_capital_changes c2 =
          Except.ok l := by
  rw [CashFlowEngine.generate, CashFlowEngine.generate,
    if_neg (not_not_intro hlen), if_neg hne]
  exact ⟨_, rfl, rfl⟩

/-- Witness for C8 at a one-period input with prior cash 0 and 999. -/
theorem C8_witness :
    ([sampleIS].length = [sampleWCC].length) ∧ (([sampleIS] : List IncomeStatement) ≠ []) ∧
    ∃ l, CashFlowEngine.generate exampleAssumptions [sampleIS] [sampleWCC] 0 =
          Except.ok l ∧
         CashFlowEngine.generate exampleAssumptions [sampleIS] [sampleWCC] 999 =
          Except.ok l :=
  ⟨rfl, by simp,
    C8_prior_cash_independent exampleAssumptions [sampleIS] [sampleWCC] 0 999
      rfl (by simp)⟩

theorem marginDiagnostics_sound (s : IncomeStatement) (d : Diagnostic)
    (hd : d ∈ ModelValidator.marginDiagnostics s) :
    d.period = s.period ∧ s.revenue ≠ 0 := by
  by_cases hz : s.revenue = 0
  · simp [ModelValidator.marginDiagnostics, hz] at hd
  · refine ⟨?_, hz⟩
    simp only [ModelValidator.marginDiagnostics, if_neg hz, List.mem_append] at hd
    rcases hd with h | h <;> split at h <;> simp_all

/-- Claim C9: the margin check never emits a diagnostic for a period with
revenue exactly zero: every diagnostic produced by the margins pass
originates from an income statement with nonzero revenue, whose period it
carries (so a period whose statement has revenue 0 gets no Margin
diagnostic, regardless of gross profit or net income). -/
theorem C9_margin_skips_zero_revenue (results : ModelResults) (d : Diagnostic)
    (hd : d ∈ ModelValidator.validateMargins results) :
    ∃ s ∈ results.income_statements, s.period = d.period ∧ s.revenue ≠ 0 := by
  obtain ⟨s, hs, hds⟩ := List.mem_bind.mp hd
  obtain ⟨hp, hz⟩ := marginDiagnostics_sound s d hds
  exact ⟨s, hs, hp.symm, hz⟩

/-- Witness for C9: the margins pass on c9results emits c9diag, and the
theorem locates its source statement with nonzero revenue. -/

theorem C9_witness :
    c9diag ∈ ModelValidator.validateMargins c9results ∧
    ∃ s ∈ c9results.income_statements, s.period = c9diag.period ∧
      s.revenue ≠ 0 := by
  have hmem : c9diag ∈ ModelValidator.validateMargins c9results := by
    norm_num [ModelValidator.validateMargins, ModelValidator.marginDiagnostics,
      c9results, c9diag]
  exact ⟨hmem, C9_margin_skips_zero_revenue c9results c9diag hmem⟩

/-- Counterexample to claim C6 as stated: in c6results the starting
(first-period) cash is deeply negative and the first projected revenue is
positive, yet the second period's sub-floor cash still yields an error
diagnostic, not the downgraded warning: the downgrade applies only to the
first period's own diagnostic. -/
theorem C6_counterexample :
    (c6results.balance_sheets.map BalanceSheet.cash =
      [-20000000000, -30000000000]) ∧
    (c6results.income_statements.map IncomeStatement.revenue = [100]) ∧
    ModelValidator.validateCashBalances c6results =
      [{ level := "warning", category := "Cash Balance", period := "2025-Q1",
         message := "Starting cash balance is negative" },
       { level := "error", category := "Cash Balance", period := "2025-Q2",
         message := "Cash balance is critically negative" }] := by
  refine ⟨rfl, rfl, ?_⟩
  norm_num [ModelValidator.validateCashBalances, ModelValidator.validateCashAux,
    ModelValidator.cashDiagnostics, ModelValidator.firstRevenueNonpos,
    c6results, sampleIS]

/-- Claim C6 (amended): for each period i the cash-health check emits an
error when cash is below the -1e10 floor, unless the first projected
period's revenue was non-positive (a more specific error instead), unless
the period under examination is itself the first period - whose own cash
is then necessarily deeply negative, so it is downgraded to a warning
(later periods are never downgraded); cash between the floor and zero
gets a plain warning; otherwise nothing. -/
theorem C6_cash_check_characterization (first_rev_nonpos : Bool) (i : ℕ)
    (bs : BalanceSheet) :
    ModelValidator.cashDiagnostics first_rev_nonpos i bs =
      if bs.cash < -10000000000 then
        (if first_rev_nonpos then
          [{ level := "error", category := "Cash Balance", period := bs.period,
             message := "Cash balance is critically negative; may be due to starting with zero revenue" }]
         else if i = 0 then
          [{ level := "warning", category := "Cash Balance", period := bs.period,
             message := "Starting cash balance is negative" }]
         else
          [{ level := "error", category := "Cash Balance", period := bs.period,
             message := "Cash balance is critically negative" }])
      else if bs.cash < 0 then
        [{ level := "warning", category := "Cash Balance", period := bs.period,
           message := "Cash balance is negative" }]
      else [] := by
  by_cases hfloor : bs.cash < -10000000000
  · have h1 : bs.cash < -1000000 := by linarith
    have h2 : (1000000 : ℚ) < |bs.cash| := by
      rw [abs_of_neg (by linarith : bs.cash < 0)]
      linarith
    by_cases hi : i = 0 <;>
      cases first_rev_nonpos <;>
        simp [ModelValidator.cashDiagnostics, hfloor, hi, h1, h2]
  · cases first_rev_nonpos <;>
      simp [ModelValidator.cashDiagnostics, hfloor]

/-- Claim C7: on c7results - off-balance by exactly 5.0 in the second
period, unremarkable otherwise - validateAll (which always runs all four
passes and only reads the ModelResults: it is a pure function here as in
the source, which never writes to results) reports exactly one
diagnostic: an error of category "Balance Sheet" for that period. No
diagnostic of any other category appears. -/
theorem C7_single_imbalance_diagnostic :
    (ModelValidator.validateAll c7results).diagnostics =
      [{ level := "error", category := "Balance Sheet", period := "2025-Q2",
         message := "Balance sheet does not balance" }] ∧
    c7results.balance_sheets.map
        (fun bs => bs.total_assets - bs.total_liabilities_and_equity) =
      [0, 5] := by
  constructor
  · norm_num [ModelValidator.validateAll, ModelValidator.validateBalanceSheets,
      ModelValidator.validateCashBalances, ModelValidator.validateCashAux,
      ModelValidator.cashDiagnostics, ModelValidator.firstRevenueNonpos,
      ModelValidator.validateMargins, ModelValidator.marginDiagnostics,
      ModelValidator.validateLogicalConsistency,
      ModelValidator.consistencyDiagnostics, BalanceSheet.check_balance,
      c7results, sampleIS, sampleCF, List.range_succ]
  · norm_num [c7results]

theorem projectSinglePeriod_post_plug_balanced (p : String)
    (s : IncomeStatement) (w : WorkingCapital) (c : CashFlowStatement)
    (prior : BalanceSheet) :
    (BalanceSheetEngine.projectSinglePeriod p s w c prior).total_assets =
      (BalanceSheetEngine.projectSinglePeriod p s w c prior).total_liabilities_and_equity := by
  simp only [BalanceSheetEngine.projectSinglePeriod]
  ring

theorem projectSinglePeriod_check_balance (p : String)
    (s : IncomeStatement) (w : WorkingCapital) (c : CashFlowStatement)
    (prior : BalanceSheet) :
    (BalanceSheetEngine.projectSinglePeriod p s w c prior).check_balance 0.01 = true := by
  rw [BalanceSheet.check_balance, decide_eq_true_eq,
    projectSinglePeriod_post_plug_balanced, sub_self, abs_zero]
  norm_num

theorem projectLoop_always_ok
    (rows : List (String × IncomeStatement × WorkingCapital × CashFlowStatement))
    (cur : BalanceSheet) :
    ∃ bss, BalanceSheetEngine.projectLoop rows cur = Except.ok bss ∧
      bss.length = rows.length ∧
      ∀ bs ∈ bss, |bs.total_assets - bs.total_liabilities_and_equity| ≤ 0.01 := by
  induction rows generalizing cur with
  | nil => exact ⟨[], rfl, rfl, by simp⟩
  | cons row rest ih =>
    obtain ⟨p, s, w, c⟩ := row
    obtain ⟨bss, hok, hlen, hall⟩ := ih (BalanceSheetEngine.projectSinglePeriod p s w c cur)
    refine ⟨BalanceSheetEngine.projectSinglePeriod p s w c cur :: bss, ?_, ?_, ?_⟩
    · rw [BalanceSheetEngine.projectLoop, projectSinglePeriod_check_balance,
        if_pos rfl, hok]
    · simp [hlen]
    · intro bs hbs
      rcases List.mem_cons.mp hbs with h | h
      · subst h
        rw [projectSinglePeriod_post_plug_balanced, sub_self, abs_zero]
        norm_num
      · exact hall bs h

/-- Claim C1: for any periods, income statements, working-capital
snapshots, cash-flow statements and prior balance sheet of matching
lengths, BalanceSheetEngine.project succeeds: after the cash plug every
projected period's recomputed total assets equal total liabilities plus
equity within the 0.01 tolerance, so the post-plug balance check always
passes and the CalculationInvariantViolation branch is unreachable. -/
theorem C1_post_plug_always_balances (periods : List String)
    (income_statements : List IncomeStatement)
    (working_capital_list : List WorkingCapital)
    (cash_flow_statements : List CashFlowStatement)
    (prior_period_bs : BalanceSheet)
    (h1 : income_statements.length = periods.length)
    (h2 : working_capital_list.length = periods.length)
    (h3 : cash_flow_statements.length = periods.length)
    (hne : periods ≠ []) :
    ∃ bss, BalanceSheetEngine.project periods income_statements
        working_capital_list cash_flow_statements prior_period_bs =
        Except.ok bss ∧
      bss.length = periods.length ∧
      ∀ bs ∈ bss, |bs.total_assets - bs.total_liabilities_and_equity| ≤ 0.01 := by
  rw [BalanceSheetEngine.project, if_neg (not_not_intro ⟨h1, h2, h3⟩), if_neg hne]
  obtain ⟨bss, hok, hlen, hall⟩ := projectLoop_always_ok
    (periods.zip (income_statements.zip
      (working_capital_list.zip cash_flow_statements))) prior_period_bs
  refine ⟨bss, hok, ?_, hall⟩
  rw [hlen]
  simp [List.length_zip, h1, h2, h3]

/-- Witness for C1 at a concrete one-period input. -/
theorem C1_witness :
    ([sampleIS].length = (["2025-Q1"] : List String).length) ∧
    ([sampleWC].length = (["2025-Q1"] : List String).length) ∧
    ([sampleCF "2025-Q1"].length = (["2025-Q1"] : List String).length) ∧
    ((["2025-Q1"] : List String) ≠ []) ∧
    ∃ bss, BalanceSheetEngine.project ["2025-Q1"] [sampleIS] [sampleWC]
        [sampleCF "2025-Q1"] samplePriorBS = Except.ok bss ∧
      bss.length = (["2025-Q1"] : List String).length ∧
      ∀ bs ∈ bss, |bs.total_assets - bs.total_liabilities_and_equity| ≤ 0.01 :=
  ⟨rfl, rfl, rfl, by simp,
    C1_post_plug_always_balances ["2025-Q1"] [sampleIS] [sampleWC]
      [sampleCF "2025-Q1"] samplePriorBS rfl rfl rfl (by simp)⟩
